import Mathlib

/-!
Shallow embedding of the scan-orchestration core of the
`web-app-security-tester` repository (`src/core/scanner.py`,
`src/core/report_generator.py`, `src/core/burp_integration.py`,
`src/core/selenium_scanner.py`), together with theorems settling the
specification claims about it.

Conventions of the embedding:
* Python dict-shaped finding records become the `Finding` structure; a key
  that may be absent becomes an `Option` field.
* Network traffic and other I/O are modelled as explicit oracle parameters
  (`Except String …` for a call that can fail in transport).
* Wall-clock timestamps (`start_time`, `end_time`, `last_update`) and the
  progress message are irrelevant to every claim and are left out of the
  record; everything else of the Python scan record is kept.
-/

namespace WebSec

/-- A value stored under a key of a finding's `details` dict. -/
inductive DVal where
  | s : String → DVal
  | b : Bool → DVal
  | n : Nat → DVal
deriving DecidableEq, Repr

/-- One finding record, as produced by the probe modules
(`type`, `severity`, `title`, `description`, `details`, optional
`remediation` keys of the Python dicts). `severity` is `Option` because
`_calculate_stats` defends against a missing key with
`finding.get('severity', 'info')`. -/
structure Finding where
  ftype : String
  severity : Option String
  title : String
  description : String
  details : List (String × DVal)
  remediation : Option String
deriving DecidableEq, Repr

/-- The `stats` dict built by `SecurityScanner._calculate_stats`
(scanner.py lines 249-257): its seven keys become seven fields. -/
structure Stats where
  total_requests : Nat
  vulnerabilities_found : Nat
  critical : Nat
  high : Nat
  medium : Nat
  low : Nat
  info : Nat
deriving DecidableEq, Repr

/-- `finding.get('severity', 'info')` (scanner.py line 260). -/
def getSeverity (f : Finding) : String :=
  f.severity.getD "info"

/-- `if severity in stats: stats[severity] += 1` (scanner.py lines 261-262):
membership is over ALL seven dict keys, and a severity string matching no
key is dropped. -/
def bumpSeverity (st : Stats) (sev : String) : Stats :=
  if sev = "total_requests" then { st with total_requests := st.total_requests + 1 }
  else if sev = "vulnerabilities_found" then
    { st with vulnerabilities_found := st.vulnerabilities_found + 1 }
  else if sev = "critical" then { st with critical := st.critical + 1 }
  else if sev = "high" then { st with high := st.high + 1 }
  else if sev = "medium" then { st with medium := st.medium + 1 }
  else if sev = "low" then { st with low := st.low + 1 }
  else if sev = "info" then { st with info := st.info + 1 }
  else st

/-- `if severity in ['critical', 'high', 'medium']: stats['vulnerabilities_found'] += 1`
(scanner.py lines 264-265). -/
def bumpVuln (st : Stats) (sev : String) : Stats :=
  if sev = "critical" ∨ sev = "high" ∨ sev = "medium" then
    { st with vulnerabilities_found := st.vulnerabilities_found + 1 }
  else st

/-- One iteration of the loop body of `_calculate_stats`. -/
def statsStep (st : Stats) (f : Finding) : Stats :=
  bumpVuln (bumpSeverity st (getSeverity f)) (getSeverity f)

/-- `SecurityScanner._calculate_stats` (scanner.py lines 247-267). -/
def calculateStats (findings : List Finding) : Stats :=
  findings.foldl statsStep
    { total_requests := findings.length
      vulnerabilities_found := 0
      critical := 0
      high := 0
      medium := 0
      low := 0
      info := 0 }

/-- Number of findings whose effective severity is `sev`. -/
def countSev (sev : String) (fs : List Finding) : Nat :=
  (fs.filter (fun f => getSeverity f = sev)).length

/-- Number of findings whose effective severity is critical, high or medium. -/
def countVuln (fs : List Finding) : Nat :=
  (fs.filter (fun f =>
    getSeverity f = "critical" ∨ getSeverity f = "high" ∨ getSeverity f = "medium")).length

/-! ### Scan orchestration (`SecurityScanner._run_scan`, scanner.py lines 85-137) -/

/-- The dict returned by `BurpIntegration.get_proxy_config`
(burp_integration.py lines 27-38). -/
structure ProxyConfig where
  http : String
  https : String
deriving DecidableEq, Repr

/-- `BurpIntegration.get_proxy_config`: both entries are the f-string
built from the scheme, the proxy host and the proxy port. -/
def getProxyConfig (proxy_host : String) (proxy_port : Nat) : ProxyConfig :=
  let proxy_url := "http://" ++ proxy_host ++ ":" ++ toString proxy_port
  { http := proxy_url, https := proxy_url }

/-- The proxy configuration of the default `BurpIntegration()` constructed by
`SecurityScanner.__init__` (host 127.0.0.1, port 8080). -/
def defaultProxyConfig : ProxyConfig :=
  getProxyConfig "127.0.0.1" 8080

/-- The mutable scan record created by `SecurityScanner.scan`
(scanner.py lines 56-71), minus wall-clock timestamps and the progress
message, which no claim mentions. -/
structure ScanRecord where
  scan_id : String
  target_url : String
  status : String
  scan_types : List String
  findings : List Finding
  stats : Stats
  error : Option String
deriving DecidableEq, Repr

/-- The environment `_run_scan` runs against: each probe module call is an
oracle from the arguments the orchestrator passes to either an exception
message (`Except.error`) or a finding list. `seleniumAvailable` models the
module-level `SELENIUM_AVAILABLE` flag (scanner.py lines 20-25). -/
structure Env where
  recon : String → Option ProxyConfig → Except String (List Finding)
  vuln : String → Option ProxyConfig → Except String (List Finding)
  browser : String → Option String → Except String (List Finding)
  burp : String → Except String (List Finding)
  seleniumAvailable : Bool

/-- The body of the `try:` block of `_run_scan` (scanner.py lines 88-119):
the four module calls in pipeline order, each guarded exactly as in the
source, an exception anywhere aborting the rest. The browser call
`self.selenium_scanner.scan(target_url)` (line 112) passes no proxy, so the
`proxy` parameter of `SeleniumScanner.scan` takes its default `None`. -/
def runScanBody (env : Env) (scan_id target_url : String) (scan_types : List String)
    (use_burp use_selenium : Bool) : Except String (List Finding) :=
  let proxies : Option ProxyConfig :=
    if use_burp then some defaultProxyConfig else none
  let step1 : Except String (List Finding) :=
    if "recon" ∈ scan_types ∨ "all" ∈ scan_types then
      env.recon target_url proxies
    else .ok []
  match step1 with
  | .error e => .error e
  | .ok f1 =>
    let step2 : Except String (List Finding) :=
      if "vulnerabilities" ∈ scan_types ∨ "all" ∈ scan_types then
        env.vuln target_url proxies
      else .ok []
    match step2 with
    | .error e => .error e
    | .ok f2 =>
      let step3 : Except String (List Finding) :=
        if use_selenium ∧ env.seleniumAvailable = true ∧
            ("browser" ∈ scan_types ∨ "all" ∈ scan_types) then
          env.browser target_url none
        else .ok []
      match step3 with
      | .error e => .error e
      | .ok f3 =>
        let step4 : Except String (List Finding) :=
          if use_burp ∧ ("burp" ∈ scan_types ∨ "all" ∈ scan_types) then
            env.burp scan_id
          else .ok []
        match step4 with
        | .error e => .error e
        | .ok f4 => .ok (f1 ++ f2 ++ f3 ++ f4)

/-- `SecurityScanner._run_scan` (scanner.py lines 85-137): on normal
completion the record gets the merged findings, recomputed stats and status
`completed`, and is appended to `scan_history`; when an exception escapes,
the `except` block sets status `error` and stores the message — the record
keeps its previous findings/stats and is NOT appended to history. Returns
the final record and the updated history list. -/
def runScan (env : Env) (record : ScanRecord) (use_burp use_selenium : Bool)
    (history : List ScanRecord) : ScanRecord × List ScanRecord :=
  match runScanBody env record.scan_id record.target_url record.scan_types
      use_burp use_selenium with
  | .ok fs =>
    let final := { record with
      findings := fs
      stats := calculateStats fs
      status := "completed" }
    (final, history ++ [final])
  | .error e =>
    ({ record with status := "error", error := some e }, history)

/-! ### Recon security-header check (`_check_security_headers`, scanner.py 196-245) -/

/-- The fixed checklist dict of `_check_security_headers`
(scanner.py lines 200-225), in insertion order: header name, severity when
missing, description when missing. -/
def securityHeaderChecklist : List (String × String × String) :=
  [("Strict-Transport-Security", "medium",
      "HSTS header missing - site vulnerable to SSL stripping attacks"),
   ("Content-Security-Policy", "medium",
      "CSP header missing - increases XSS attack surface"),
   ("X-Frame-Options", "medium",
      "X-Frame-Options missing - site may be vulnerable to clickjacking"),
   ("X-Content-Type-Options", "low",
      "X-Content-Type-Options missing - browser may MIME-sniff content"),
   ("Referrer-Policy", "low",
      "Referrer-Policy missing - referrer information may leak"),
   ("Permissions-Policy", "info",
      "Permissions-Policy missing - browser features not restricted")]

/-- Key lookup in a response-header mapping (`header not in headers` /
`headers[header]`). -/
def lookupHeader (headers : List (String × String)) (name : String) : Option String :=
  (headers.find? (fun p => p.1 = name)).map Prod.snd

/-- The finding appended for one checklist entry (the if/else of
scanner.py lines 227-243). -/
def headerFinding (headers : List (String × String))
    (entry : String × String × String) : Finding :=
  match lookupHeader headers entry.1 with
  | none =>
    { ftype := "security_header"
      severity := some entry.2.1
      title := "Missing " ++ entry.1
      description := entry.2.2
      details := [("header", .s entry.1), ("present", .b false)]
      remediation := none }
  | some v =>
    { ftype := "security_header"
      severity := some "info"
      title := entry.1 ++ " Present"
      description := entry.1 ++ " header is properly configured"
      details := [("header", .s entry.1), ("value", .s v), ("present", .b true)]
      remediation := none }

/-- `SecurityScanner._check_security_headers` (scanner.py lines 196-245):
one finding per checklist entry, in checklist order. -/
def checkSecurityHeaders (headers : List (String × String)) : List Finding :=
  securityHeaderChecklist.map (headerFinding headers)

/-! ### Report generation (`ReportGenerator`, report_generator.py) -/

/-- The two failure modes of `ReportGenerator.generate_report`: the two
`ValueError`s of report_generator.py lines 37 and 46. -/
inductive ReportError where
  | notFound (scan_id : String)
  | unsupportedFormat (format_type : String)
deriving DecidableEq, Repr

/-- A successful rendering: which of `_generate_pdf` / `_generate_html` /
`_generate_json` was dispatched, applied to the loaded record. -/
inductive ReportOutput where
  | pdf (scan_data : ScanRecord)
  | html (scan_data : ScanRecord)
  | json (scan_data : ScanRecord)
deriving DecidableEq, Repr

/-- Linear search of a history list by `scan_id` (the loop of
report_generator.py lines 56-58, and the loop of
`SecurityScanner.get_scan_status`, scanner.py lines 282-284). -/
def lookupById (history : List ScanRecord) (scan_id : String) : Option ScanRecord :=
  history.find? (fun record => record.scan_id = scan_id)

/-- `ReportGenerator._load_scan_data` (report_generator.py lines 48-61):
reads ONLY the durable file `logs/scan_history.json`. `fileHistory = none`
models a missing or unreadable file (the `os.path.exists` guard and the
swallowed exception); otherwise the stored list is searched by id. -/
def loadScanData (fileHistory : Option (List ScanRecord)) (scan_id : String) :
    Option ScanRecord :=
  match fileHistory with
  | none => none
  | some history => lookupById history scan_id

/-- `ReportGenerator.generate_report` (report_generator.py lines 21-46):
the lookup happens before any format dispatch, so an unknown id fails
not-found whatever the format; a loaded record is dispatched on the format
string, any token outside pdf/html/json failing unsupported-format. -/
def generateReport (fileHistory : Option (List ScanRecord))
    (scan_id format_type : String) : Except ReportError ReportOutput :=
  match loadScanData fileHistory scan_id with
  | none => .error (.notFound scan_id)
  | some scan_data =>
    if format_type = "pdf" then .ok (.pdf scan_data)
    else if format_type = "html" then .ok (.html scan_data)
    else if format_type = "json" then .ok (.json scan_data)
    else .error (.unsupportedFormat format_type)

/-! ### Proxy-analysis module (`BurpIntegration`, burp_integration.py) -/

/-- Python truthiness of the optional string credentials
(`if self.api_url and self.api_key`, burp_integration.py line 104):
`None` and the empty string are falsy. -/
def truthyOpt (s : Option String) : Bool :=
  match s with
  | none => false
  | some v => v ≠ ""

/-- The credential/configuration state of a `BurpIntegration` instance. -/
structure BurpConfig where
  proxy_host : String
  proxy_port : Nat
  api_url : Option String
  api_key : Option String
deriving DecidableEq, Repr

/-- One issue object of the remote API's JSON (the `issue.get(...)` keys of
burp_integration.py lines 127-147); every key may be absent. -/
structure BurpIssue where
  severity : Option String
  name : Option String
  descr : Option String
  issue_type : Option String
  host : Option String
  path : Option String
  confidence : Option String
  remediation : Option String
deriving DecidableEq, Repr

/-- `BurpIntegration.is_proxy_running` (burp_integration.py lines 51-63):
the probe request is an oracle; a transport failure
(`requests.exceptions.RequestException`) is caught and mapped to `false`,
success to `true` — the function itself never fails. -/
def isProxyRunning (probe : Except String Unit) : Bool :=
  match probe with
  | .ok _ => true
  | .error _ => false

/-- The single finding `analyze` emits when the proxy is unreachable
(burp_integration.py lines 78-90). -/
def proxyUnavailableFinding (cfg : BurpConfig) : Finding :=
  { ftype := "burp"
    severity := some "info"
    title := "Burp Suite Proxy Not Available"
    description := "Could not connect to Burp proxy at " ++ cfg.proxy_host ++ ":"
      ++ toString cfg.proxy_port
    details := [("proxy_host", .s cfg.proxy_host), ("proxy_port", .n cfg.proxy_port)]
    remediation := some "Ensure Burp Suite is running and proxy is configured correctly." }

/-- The confirmation finding when the proxy answers
(burp_integration.py lines 92-101). -/
def proxyConnectedFinding (cfg : BurpConfig) : Finding :=
  { ftype := "burp"
    severity := some "info"
    title := "Burp Suite Proxy Connected"
    description := "Successfully connected to Burp proxy at " ++ cfg.proxy_host ++ ":"
      ++ toString cfg.proxy_port
    details := [("proxy_host", .s cfg.proxy_host), ("proxy_port", .n cfg.proxy_port)]
    remediation := none }

/-- `severity_map.get(issue.get('severity', 'info'), 'info')`
(burp_integration.py lines 128-137): the four-key mapping with default
`info` for anything else. -/
def translateSeverity (sev : Option String) : String :=
  let s := sev.getD "info"
  if s = "high" then "high"
  else if s = "medium" then "medium"
  else if s = "low" then "low"
  else if s = "information" then "info"
  else "info"

/-- The finding built from one remote issue
(burp_integration.py lines 135-147). -/
def issueToFinding (issue : BurpIssue) : Finding :=
  { ftype := "burp_issue"
    severity := some (translateSeverity issue.severity)
    title := issue.name.getD "Burp Issue"
    description := issue.descr.getD "No description available"
    details := [("issue_type", .s (issue.issue_type.getD "unknown")),
                ("host", .s (issue.host.getD "")),
                ("path", .s (issue.path.getD "")),
                ("confidence", .s (issue.confidence.getD "unknown"))]
    remediation := some (issue.remediation.getD
      "See Burp Suite documentation for remediation advice.") }

/-- The finding for a non-200 API response
(burp_integration.py lines 149-155). -/
def apiStatusFinding (status_code : Nat) : Finding :=
  { ftype := "burp"
    severity := some "info"
    title := "Burp API Response"
    description := "API returned status code: " ++ toString status_code
    details := [("status_code", .n status_code)]
    remediation := none }

/-- The finding for a transport failure talking to the API
(burp_integration.py lines 157-164). -/
def apiErrorFinding (msg : String) : Finding :=
  { ftype := "burp"
    severity := some "info"
    title := "Burp API Error"
    description := "Could not fetch results from Burp API: " ++ msg
    details := []
    remediation := none }

/-- `BurpIntegration._fetch_api_results` (burp_integration.py lines
110-166): the issues-endpoint request is an oracle delivering either a
transport failure or a status code with the decoded issue list; status 200
maps every issue, anything else or a failure yields one `info` finding. -/
def fetchApiResults (apiResponse : Except String (Nat × List BurpIssue)) :
    List Finding :=
  match apiResponse with
  | .error e => [apiErrorFinding e]
  | .ok (status_code, issues) =>
    if status_code = 200 then issues.map issueToFinding
    else [apiStatusFinding status_code]

/-- `BurpIntegration.analyze` (burp_integration.py lines 65-108): if the
availability probe fails, exactly the unavailable finding; otherwise the
confirmation finding, followed by the API results only when both
credentials are truthy. -/
def burpAnalyze (cfg : BurpConfig) (probe : Except String Unit)
    (apiResponse : Except String (Nat × List BurpIssue)) : List Finding :=
  if isProxyRunning probe = false then
    [proxyUnavailableFinding cfg]
  else
    proxyConnectedFinding cfg ::
      (if truthyOpt cfg.api_url && truthyOpt cfg.api_key then
        fetchApiResults apiResponse
      else [])

/-! ### Concrete fixtures used by counterexamples and witnesses -/

/-- A finding with only type, severity and title populated. -/
def mkFinding (ftype : String) (sev : Option String) (title : String) : Finding :=
  { ftype := ftype
    severity := sev
    title := title
    description := ""
    details := []
    remediation := none }

/-- The freshly created scan record of `SecurityScanner.scan`
(scanner.py lines 56-71): status `running`, no findings, zeroed stats
(the Python initial stats dict carries no `info` key; it is replaced
wholesale on completion, so `0` is a faithful stand-in). -/
def freshRecord (scan_id target_url : String) (scan_types : List String) : ScanRecord :=
  { scan_id := scan_id
    target_url := target_url
    status := "running"
    scan_types := scan_types
    findings := []
    stats := { total_requests := 0, vulnerabilities_found := 0, critical := 0,
               high := 0, medium := 0, low := 0, info := 0 }
    error := none }

/-- A probe environment in which the vulnerability module raises while the
recon and browser modules would each contribute one finding. -/
def envVulnRaises : Env :=
  { recon := fun _ _ => .ok [mkFinding "info" (some "info") "Target Response"]
    vuln := fun _ _ => .error "boom"
    browser := fun _ _ => .ok [mkFinding "browser" (some "info") "Browser Finding"]
    burp := fun _ => .ok []
    seleniumAvailable := true }

/-- A probe environment whose modules each report, in the title of a single
finding, which proxy argument the orchestrator handed them. -/
def proxySpyEnv : Env :=
  { recon := fun _ proxies => .ok [mkFinding "recon" (some "info")
      (match proxies with
       | some cfg => "recon-proxy:" ++ cfg.http
       | none => "recon-no-proxy")]
    vuln := fun _ proxies => .ok [mkFinding "vuln" (some "info")
      (match proxies with
       | some cfg => "vuln-proxy:" ++ cfg.http
       | none => "vuln-no-proxy")]
    browser := fun _ proxy => .ok [mkFinding "browser" (some "info")
      (match proxy with
       | some p => "browser-proxy:" ++ p
       | none => "browser-no-proxy")]
    burp := fun _ => .ok []
    seleniumAvailable := true }

/-- A finding whose severity string matches none of the stats keys. -/
def unknownSevFinding : Finding :=
  mkFinding "test" (some "unknown") "Unknown severity"

/-- A finding whose severity string collides with the `total_requests`
stats key. -/
def totalReqSevFinding : Finding :=
  mkFinding "test" (some "total_requests") "Colliding severity"

/-- Sample finding list for the stats witness: one high, one with the
severity key absent, one unknown. -/
def sampleStatsFindings : List Finding :=
  [mkFinding "recon" (some "high") "A", mkFinding "recon" none "B", unknownSevFinding]

/-- The severity-`s` count the claim text prescribes for `s = info`:
missing and unknown severities both counted as `info`. -/
def claimedInfoCount (fs : List Finding) : Nat :=
  (fs.filter (fun f =>
    match f.severity with
    | none => true
    | some s => s = "info" ∨ (s ≠ "critical" ∧ s ≠ "high" ∧ s ≠ "medium" ∧ s ≠ "low"))).length

/-- A configured `BurpIntegration` state with truthy API credentials. -/
def sampleBurpConfig : BurpConfig :=
  { proxy_host := "127.0.0.1"
    proxy_port := 8080
    api_url := some "http://localhost:1337/v0.1"
    api_key := some "k" }

/-- A remote issue carrying only the severity `information`. -/
def sampleIssue : BurpIssue :=
  { severity := some "information"
    name := none
    descr := none
    issue_type := none
    host := none
    path := none
    confidence := none
    remediation := none }

/-- A terminal scan record sitting in a history list. -/
def storedRecord : ScanRecord :=
  { freshRecord "done-1" "http://target.example" ["recon"] with status := "completed" }

lemma bumpSeverity_critical (st : Stats) (sev : String) :
    (bumpSeverity st sev).critical =
      st.critical + (if sev = "critical" then 1 else 0) := by
  unfold bumpSeverity
  split_ifs <;> simp_all

lemma bumpSeverity_high (st : Stats) (sev : String) :
    (bumpSeverity st sev).high = st.high + (if sev = "high" then 1 else 0) := by
  unfold bumpSeverity
  split_ifs <;> simp_all

lemma bumpSeverity_medium (st : Stats) (sev : String) :
    (bumpSeverity st sev).medium = st.medium + (if sev = "medium" then 1 else 0) := by
  unfold bumpSeverity
  split_ifs <;> simp_all

lemma bumpSeverity_low (st : Stats) (sev : String) :
    (bumpSeverity st sev).low = st.low + (if sev = "low" then 1 else 0) := by
  unfold bumpSeverity
  split_ifs <;> simp_all

lemma bumpSeverity_info (st : Stats) (sev : String) :
    (bumpSeverity st sev).info = st.info + (if sev = "info" then 1 else 0) := by
  unfold bumpSeverity
  split_ifs <;> simp_all

lemma bumpSeverity_total (st : Stats) (sev : String) :
    (bumpSeverity st sev).total_requests =
      st.total_requests + (if sev = "total_requests" then 1 else 0) := by
  unfold bumpSeverity
  split_ifs <;> simp_all

lemma bumpSeverity_vuln_field (st : Stats) (sev : String) :
    (bumpSeverity st sev).vulnerabilities_found =
      st.vulnerabilities_found + (if sev = "vulnerabilities_found" then 1 else 0) := by
  unfold bumpSeverity
  split_ifs <;> simp_all

lemma bumpVuln_preserves (st : Stats) (sev : String) :
    (bumpVuln st sev).critical = st.critical ∧
    (bumpVuln st sev).high = st.high ∧
    (bumpVuln st sev).medium = st.medium ∧
    (bumpVuln st sev).low = st.low ∧
    (bumpVuln st sev).info = st.info ∧
    (bumpVuln st sev).total_requests = st.total_requests := by
  unfold bumpVuln
  split_ifs <;> simp_all

lemma bumpVuln_vuln_field (st : Stats) (sev : String) :
    (bumpVuln st sev).vulnerabilities_found =
      st.vulnerabilities_found +
        (if sev = "critical" ∨ sev = "high" ∨ sev = "medium" then 1 else 0) := by
  unfold bumpVuln
  split_ifs <;> simp_all

lemma statsStep_critical (st : Stats) (f : Finding) :
    (statsStep st f).critical =
      st.critical + (if getSeverity f = "critical" then 1 else 0) := by
  unfold statsStep
  rw [(bumpVuln_preserves _ _).1, bumpSeverity_critical]

lemma statsStep_high (st : Stats) (f : Finding) :
    (statsStep st f).high = st.high + (if getSeverity f = "high" then 1 else 0) := by
  unfold statsStep
  rw [(bumpVuln_preserves _ _).2.1, bumpSeverity_high]

lemma statsStep_medium (st : Stats) (f : Finding) :
    (statsStep st f).medium = st.medium + (if getSeverity f = "medium" then 1 else 0) := by
  unfold statsStep
  rw [(bumpVuln_preserves _ _).2.2.1, bumpSeverity_medium]

lemma statsStep_low (st : Stats) (f : Finding) :
    (statsStep st f).low = st.low + (if getSeverity f = "low" then 1 else 0) := by
  unfold statsStep
  rw [(bumpVuln_preserves _ _).2.2.2.1, bumpSeverity_low]

lemma statsStep_info (st : Stats) (f : Finding) :
    (statsStep st f).info = st.info + (if getSeverity f = "info" then 1 else 0) := by
  unfold statsStep
  rw [(bumpVuln_preserves _ _).2.2.2.2.1, bumpSeverity_info]

lemma statsStep_total (st : Stats) (f : Finding) :
    (statsStep st f).total_requests =
      st.total_requests + (if getSeverity f = "total_requests" then 1 else 0) := by
  unfold statsStep
  rw [(bumpVuln_preserves _ _).2.2.2.2.2, bumpSeverity_total]

lemma statsStep_vuln_field (st : Stats) (f : Finding) :
    (statsStep st f).vulnerabilities_found =
      st.vulnerabilities_found +
        (if getSeverity f = "vulnerabilities_found" then 1 else 0) +
        (if getSeverity f = "critical" ∨ getSeverity f = "high" ∨ getSeverity f = "medium"
         then 1 else 0) := by
  unfold statsStep
  rw [bumpVuln_vuln_field, bumpSeverity_vuln_field]

lemma foldl_statsStep_critical (fs : List Finding) (st : Stats) :
    (fs.foldl statsStep st).critical = st.critical + countSev "critical" fs := by
  induction fs generalizing st with
  | nil => simp [countSev]
  | cons f t ih =>
      by_cases h : getSeverity f = "critical" <;>
        simp [List.foldl_cons, ih, statsStep_critical, countSev, List.filter_cons, h] <;>
        omega

lemma foldl_statsStep_high (fs : List Finding) (st : Stats) :
    (fs.foldl statsStep st).high = st.high + countSev "high" fs := by
  induction fs generalizing st with
  | nil => simp [countSev]
  | cons f t ih =>
      by_cases h : getSeverity f = "high" <;>
        simp [List.foldl_cons, ih, statsStep_high, countSev, List.filter_cons, h] <;>
        omega

lemma foldl_statsStep_medium (fs : List Finding) (st : Stats) :
    (fs.foldl statsStep st).medium = st.medium + countSev "medium" fs := by
  induction fs generalizing st with
  | nil => simp [countSev]
  | cons f t ih =>
      by_cases h : getSeverity f = "medium" <;>
        simp [List.foldl_cons, ih, statsStep_medium, countSev, List.filter_cons, h] <;>
        omega

lemma foldl_statsStep_low (fs : List Finding) (st : Stats) :
    (fs.foldl statsStep st).low = st.low + countSev "low" fs := by
  induction fs generalizing st with
  | nil => simp [countSev]
  | cons f t ih =>
      by_cases h : getSeverity f = "low" <;>
        simp [List.foldl_cons, ih, statsStep_low, countSev, List.filter_cons, h] <;>
        omega

lemma foldl_statsStep_info (fs : List Finding) (st : Stats) :
    (fs.foldl statsStep st).info = st.info + countSev "info" fs := by
  induction fs generalizing st with
  | nil => simp [countSev]
  | cons f t ih =>
      by_cases h : getSeverity f = "info" <;>
        simp [List.foldl_cons, ih, statsStep_info, countSev, List.filter_cons, h] <;>
        omega

lemma foldl_statsStep_total (fs : List Finding) (st : Stats) :
    (fs.foldl statsStep st).total_requests =
      st.total_requests + countSev "total_requests" fs := by
  induction fs generalizing st with
  | nil => simp [countSev]
  | cons f t ih =>
      by_cases h : getSeverity f = "total_requests" <;>
        simp [List.foldl_cons, ih, statsStep_total, countSev, List.filter_cons, h] <;>
        omega

lemma foldl_statsStep_vuln (fs : List Finding) (st : Stats) :
    (fs.foldl statsStep st).vulnerabilities_found =
      st.vulnerabilities_found + countSev "vulnerabilities_found" fs + countVuln fs := by
  induction fs generalizing st with
  | nil => simp [countSev, countVuln]
  | cons f t ih =>
      by_cases h1 : getSeverity f = "vulnerabilities_found" <;>
      by_cases h2 : getSeverity f = "critical" ∨ getSeverity f = "high" ∨
          getSeverity f = "medium" <;>
        simp [List.foldl_cons, ih, statsStep_vuln_field, countSev, countVuln,
          List.filter_cons, h1, h2] <;>
        omega

lemma calculateStats_critical (fs : List Finding) :
    (calculateStats fs).critical = countSev "critical" fs := by
  unfold calculateStats
  rw [foldl_statsStep_critical]
  simp

lemma calculateStats_high (fs : List Finding) :
    (calculateStats fs).high = countSev "high" fs := by
  unfold calculateStats
  rw [foldl_statsStep_high]
  simp

lemma calculateStats_medium (fs : List Finding) :
    (calculateStats fs).medium = countSev "medium" fs := by
  unfold calculateStats
  rw [foldl_statsStep_medium]
  simp

lemma calculateStats_low (fs : List Finding) :
    (calculateStats fs).low = countSev "low" fs := by
  unfold calculateStats
  rw [foldl_statsStep_low]
  simp

lemma calculateStats_info (fs : List Finding) :
    (calculateStats fs).info = countSev "info" fs := by
  unfold calculateStats
  rw [foldl_statsStep_info]
  simp

lemma calculateStats_total (fs : List Finding) :
    (calculateStats fs).total_requests =
      fs.length + countSev "total_requests" fs := by
  unfold calculateStats
  rw [foldl_statsStep_total]

lemma calculateStats_vuln (fs : List Finding) :
    (calculateStats fs).vulnerabilities_found =
      countSev "vulnerabilities_found" fs + countVuln fs := by
  unfold calculateStats
  rw [foldl_statsStep_vuln]
  simp

lemma countVuln_split (fs : List Finding) :
    countVuln fs =
      countSev "critical" fs + countSev "high" fs + countSev "medium" fs := by
  induction fs with
  | nil => simp [countVuln, countSev]
  | cons f t ih =>
      by_cases h1 : getSeverity f = "critical" <;>
      by_cases h2 : getSeverity f = "high" <;>
      by_cases h3 : getSeverity f = "medium" <;>
        simp_all [countVuln, countSev, List.filter_cons] <;>
        omega

lemma countSev_eq_zero (sev : String) (fs : List Finding)
    (h : ∀ f ∈ fs, getSeverity f ≠ sev) : countSev sev fs = 0 := by
  unfold countSev
  rw [List.length_eq_zero, List.filter_eq_nil_iff]
  intro f hf
  simpa using h f hf

/-! ## Claim theorems -/

/-- Claim C1, counterexample: scanning with modules `all`, a vulnerability
module that raises, and a browser module that would contribute a finding,
`_run_scan` sets the record's status to `error` and leaves its findings
empty — so no `error`-severity Finding is created and the browser module's
findings do not appear, contrary to the claim that the exception is caught
at the module boundary, one error finding is added, the status never
becomes `error`, and subsequent modules still run. -/
theorem C1_counterexample :
    (runScan envVulnRaises (freshRecord "s1" "http://t" ["all"]) false true []).1.status
        = "error" ∧
    (runScan envVulnRaises (freshRecord "s1" "http://t" ["all"]) false true []).1.findings
        = [] :=
  ⟨rfl, rfl⟩

/-- Claim C1, amended: an exception raised inside a probe module call during
`_run_scan` propagates to the single scan-level `except` handler: the
record's status becomes `error` with the message stored, no finding of any
severity is appended, subsequent modules do not execute (the result is
independent of the browser and proxy-analysis oracles), and the record is
not appended to history. Stated for a scan of the `all` module set without
proxy whose recon call succeeds and whose vulnerability call raises. -/
theorem C1_module_exception_drives_error_status
    (env : Env) (record : ScanRecord) (us : Bool) (history : List ScanRecord)
    (fs1 : List Finding) (msg : String)
    (hall : "all" ∈ record.scan_types)
    (hrecon : env.recon record.target_url none = .ok fs1)
    (hvuln : env.vuln record.target_url none = .error msg) :
    runScan env record false us history =
      ({ record with status := "error", error := some msg }, history) := by
  simp [runScan, runScanBody, hall, hrecon, hvuln]

/-- Witness for C1: the amended theorem applied to the concrete raising
environment. -/
theorem C1_witness :
    runScan envVulnRaises (freshRecord "s1w" "http://t" ["all"]) false true [] =
      ({ freshRecord "s1w" "http://t" ["all"] with
          status := "error", error := some "boom" }, []) :=
  C1_module_exception_drives_error_status envVulnRaises
    (freshRecord "s1w" "http://t" ["all"]) true []
    [mkFinding "info" (some "info") "Target Response"] "boom"
    (by decide) rfl rfl

/-- Claim C2, counterexample: on a single finding with the unknown severity
string `unknown`, `_calculate_stats` leaves the `info` bucket at `0`,
whereas the claim (unknown severity counted as `info`) prescribes `1`. -/
theorem C2_counterexample :
    (calculateStats [unknownSevFinding]).info = 0 ∧
    claimedInfoCount [unknownSevFinding] = 1 :=
  ⟨rfl, rfl⟩

/-- Claim C2, amended: for each of the five severities `s`, the stats bucket
`s` equals the count of findings whose severity — defaulting to `info` only
when the key is MISSING — equals `s`; a finding with an unknown severity
string is skipped by the `if severity in stats` guard and counted in no
bucket. Provided no finding carries the pathological severity string
`vulnerabilities_found` (which would collide with that stats key),
`vulnerabilities_found` equals the critical + high + medium buckets. -/
theorem C2_stats_severity_counts (fs : List Finding)
    (h : ∀ f ∈ fs, getSeverity f ≠ "vulnerabilities_found") :
    (calculateStats fs).critical = countSev "critical" fs ∧
    (calculateStats fs).high = countSev "high" fs ∧
    (calculateStats fs).medium = countSev "medium" fs ∧
    (calculateStats fs).low = countSev "low" fs ∧
    (calculateStats fs).info = countSev "info" fs ∧
    (calculateStats fs).vulnerabilities_found =
      (calculateStats fs).critical + (calculateStats fs).high +
        (calculateStats fs).medium := by
  refine ⟨calculateStats_critical fs, calculateStats_high fs, calculateStats_medium fs,
    calculateStats_low fs, calculateStats_info fs, ?_⟩
  rw [calculateStats_vuln, countSev_eq_zero "vulnerabilities_found" fs h,
    countVuln_split, calculateStats_critical, calculateStats_high, calculateStats_medium]
  omega

/-- Witness for C2: the amended theorem applied to a concrete mixed list
(one high, one missing severity, one unknown). -/
theorem C2_witness :
    (calculateStats sampleStatsFindings).critical = countSev "critical" sampleStatsFindings ∧
    (calculateStats sampleStatsFindings).high = countSev "high" sampleStatsFindings ∧
    (calculateStats sampleStatsFindings).medium = countSev "medium" sampleStatsFindings ∧
    (calculateStats sampleStatsFindings).low = countSev "low" sampleStatsFindings ∧
    (calculateStats sampleStatsFindings).info = countSev "info" sampleStatsFindings ∧
    (calculateStats sampleStatsFindings).vulnerabilities_found =
      (calculateStats sampleStatsFindings).critical +
        (calculateStats sampleStatsFindings).high +
        (calculateStats sampleStatsFindings).medium :=
  C2_stats_severity_counts sampleStatsFindings (by decide)

/-- Claim C3, counterexample: a scan whose vulnerability module raises
reaches the terminal status `error`, yet the history list stays empty — an
`error`-status record is NOT appended to `scan_history` (the append at
scanner.py line 131 sits inside the `try` block, before the `except`). -/
theorem C3_counterexample :
    (runScan envVulnRaises (freshRecord "s3" "http://t" ["all"]) false true []).1.status
        = "error" ∧
    (runScan envVulnRaises (freshRecord "s3" "http://t" ["all"]) false true []).2 = [] :=
  ⟨rfl, rfl⟩

/-- Claim C3, amended: `_run_scan` always ends in a terminal status, and
only a record reaching `completed` is appended to the history store; a
record ending in `error` status is not appended and therefore does not
appear in `get_scan_history()`. -/
theorem C3_history_appends_only_completed (env : Env) (record : ScanRecord)
    (ub us : Bool) (history : List ScanRecord) :
    ((runScan env record ub us history).1.status = "completed" ∧
      (runScan env record ub us history).2 =
        history ++ [(runScan env record ub us history).1]) ∨
    ((runScan env record ub us history).1.status = "error" ∧
      (runScan env record ub us history).2 = history) := by
  cases hb : runScanBody env record.scan_id record.target_url record.scan_types ub us with
  | error e => right; simp [runScan, hb]
  | ok fs => left; simp [runScan, hb]

/-- Claim C4: report generation for an id absent from the stored history
fails not-found for EVERY format token (the lookup precedes the format
dispatch), and for a stored id with a format outside pdf/html/json it fails
unsupported-format. -/
theorem C4_report_error_conditions (fileHistory : Option (List ScanRecord))
    (scan_id format_type : String) :
    (loadScanData fileHistory scan_id = none →
      generateReport fileHistory scan_id format_type = .error (.notFound scan_id)) ∧
    (∀ scan_data, loadScanData fileHistory scan_id = some scan_data →
      format_type ≠ "pdf" → format_type ≠ "html" → format_type ≠ "json" →
      generateReport fileHistory scan_id format_type =
        .error (.unsupportedFormat format_type)) := by
  constructor
  · intro h
    simp [generateReport, h]
  · intro scan_data h h1 h2 h3
    simp [generateReport, h, h1, h2, h3]

/-- Witness for C4: an unknown id fails not-found even for the unsupported
format `xml`, and a stored id with format `xml` fails unsupported-format. -/
theorem C4_witness :
    generateReport (some [storedRecord]) "missing-id" "xml" =
      .error (.notFound "missing-id") ∧
    generateReport (some [storedRecord]) "done-1" "xml" =
      .error (.unsupportedFormat "xml") :=
  ⟨(C4_report_error_conditions (some [storedRecord]) "missing-id" "xml").1 rfl,
   (C4_report_error_conditions (some [storedRecord]) "done-1" "xml").2 storedRecord rfl
     (by decide) (by decide) (by decide)⟩

/-- Claim C5, counterexample: a record whose id is present in an in-memory
history list (`lookupById` is the search the scanner uses over
`scan_history`) but absent from the durable file still makes
`generate_report` fail not-found — `_load_scan_data` reads only
`logs/scan_history.json` and never consults the in-memory history, contrary
to the claimed memory-first lookup with file fallback. -/
theorem C5_counterexample :
    lookupById [storedRecord] "done-1" = some storedRecord ∧
    generateReport (some []) "done-1" "json" = .error (.notFound "done-1") :=
  ⟨rfl, rfl⟩

/-- Claim C5, amended: report generation looks the record up ONLY in the
durable history file; it fails not-found exactly when the id is absent from
that file (or the file is missing/unreadable), regardless of any in-memory
history. -/
theorem C5_lookup_is_durable_only (fileHistory : Option (List ScanRecord))
    (scan_id format_type : String) :
    generateReport fileHistory scan_id format_type = .error (.notFound scan_id) ↔
      loadScanData fileHistory scan_id = none := by
  cases h : loadScanData fileHistory scan_id with
  | none => simp [generateReport, h]
  | some scan_data =>
      simp only [generateReport, h]
      split_ifs <;> simp

/-- Claim C6, counterexample: with `use_burp` set and the `all` module set,
the spy environment records that recon and vuln receive the resolved proxy
configuration while the browser module is invoked with NO proxy (the call
at scanner.py line 112 passes only the target URL, so the launch-time
`proxy` parameter of `SeleniumScanner.scan` stays `None`), contrary to the
claim that the browser session receives the proxy at launch. -/
theorem C6_counterexample :
    runScanBody proxySpyEnv "s6" "http://t" ["all"] true true =
      .ok [mkFinding "recon" (some "info") "recon-proxy:http://127.0.0.1:8080",
           mkFinding "vuln" (some "info") "vuln-proxy:http://127.0.0.1:8080",
           mkFinding "browser" (some "info") "browser-no-proxy"] :=
  rfl

/-- Claim C6, amended: when `use_burp` is set the Orchestrator resolves the
proxy configuration once and passes it to the Recon and Vulnerability
module calls, but the Browser-Automation call receives no proxy argument
(its launch-time proxy parameter defaults to `None`), so the browser
session is launched without the proxy. -/
theorem C6_proxy_threading (env : Env) (scan_id target_url : String)
    (scan_types : List String) (a b c d : List Finding)
    (hall : "all" ∈ scan_types) (hsel : env.seleniumAvailable = true)
    (hrecon : env.recon target_url (some defaultProxyConfig) = .ok a)
    (hvuln : env.vuln target_url (some defaultProxyConfig) = .ok b)
    (hbrowser : env.browser target_url none = .ok c)
    (hburp : env.burp scan_id = .ok d) :
    runScanBody env scan_id target_url scan_types true true = .ok (a ++ b ++ c ++ d) := by
  simp [runScanBody, hall, hsel, hrecon, hvuln, hburp, hbrowser]

/-- Witness for C6: the amended theorem applied to the spy environment. -/
theorem C6_witness :
    runScanBody proxySpyEnv "s6w" "http://u" ["all"] true true =
      .ok ([mkFinding "recon" (some "info") "recon-proxy:http://127.0.0.1:8080"] ++
           [mkFinding "vuln" (some "info") "vuln-proxy:http://127.0.0.1:8080"] ++
           [mkFinding "browser" (some "info") "browser-no-proxy"] ++ []) :=
  C6_proxy_threading proxySpyEnv "s6w" "http://u" ["all"]
    [mkFinding "recon" (some "info") "recon-proxy:http://127.0.0.1:8080"]
    [mkFinding "vuln" (some "info") "vuln-proxy:http://127.0.0.1:8080"]
    [mkFinding "browser" (some "info") "browser-no-proxy"] []
    (by decide) rfl rfl rfl rfl rfl

/-- Claim C7: the recon header check emits exactly one finding per entry of
the fixed six-header checklist, in checklist order; the checklist names and
missing-header severities are exactly the claimed ones; an absent header
yields the header-specific severity with a `Missing` title, and a present
header yields an `info` finding whose details echo the header's value. -/
theorem C7_security_header_findings (headers : List (String × String)) (i : Nat)
    (name sev desc : String)
    (hget : securityHeaderChecklist[i]? = some (name, sev, desc)) :
    (checkSecurityHeaders headers).length = 6 ∧
    securityHeaderChecklist.map (fun e => e.1) =
      ["Strict-Transport-Security", "Content-Security-Policy", "X-Frame-Options",
       "X-Content-Type-Options", "Referrer-Policy", "Permissions-Policy"] ∧
    securityHeaderChecklist.map (fun e => e.2.1) =
      ["medium", "medium", "medium", "low", "low", "info"] ∧
    (checkSecurityHeaders headers)[i]? =
      some (headerFinding headers (name, sev, desc)) ∧
    (lookupHeader headers name = none →
      (headerFinding headers (name, sev, desc)).severity = some sev ∧
      (headerFinding headers (name, sev, desc)).title = "Missing " ++ name) ∧
    (∀ v, lookupHeader headers name = some v →
      (headerFinding headers (name, sev, desc)).severity = some "info" ∧
      (headerFinding headers (name, sev, desc)).title = name ++ " Present" ∧
      ("value", DVal.s v) ∈ (headerFinding headers (name, sev, desc)).details) := by
  refine ⟨by simp [checkSecurityHeaders, securityHeaderChecklist], rfl, rfl, ?_, ?_, ?_⟩
  · simp [checkSecurityHeaders, List.getElem?_map, hget]
  · intro h
    simp [headerFinding, h]
  · intro v hv
    simp [headerFinding, hv]

/-- Witness for C7: checklist entry 2 (`X-Frame-Options`) against a header
mapping that carries it with value `DENY`. -/
theorem C7_witness :
    (checkSecurityHeaders [("X-Frame-Options", "DENY")]).length = 6 ∧
    securityHeaderChecklist.map (fun e => e.1) =
      ["Strict-Transport-Security", "Content-Security-Policy", "X-Frame-Options",
       "X-Content-Type-Options", "Referrer-Policy", "Permissions-Policy"] ∧
    securityHeaderChecklist.map (fun e => e.2.1) =
      ["medium", "medium", "medium", "low", "low", "info"] ∧
    (checkSecurityHeaders [("X-Frame-Options", "DENY")])[2]? =
      some (headerFinding [("X-Frame-Options", "DENY")]
        ("X-Frame-Options", "medium",
         "X-Frame-Options missing - site may be vulnerable to clickjacking")) ∧
    (lookupHeader [("X-Frame-Options", "DENY")] "X-Frame-Options" = none →
      (headerFinding [("X-Frame-Options", "DENY")]
        ("X-Frame-Options", "medium",
         "X-Frame-Options missing - site may be vulnerable to clickjacking")).severity =
          some "medium" ∧
      (headerFinding [("X-Frame-Options", "DENY")]
        ("X-Frame-Options", "medium",
         "X-Frame-Options missing - site may be vulnerable to clickjacking")).title =
          "Missing " ++ "X-Frame-Options") ∧
    (∀ v, lookupHeader [("X-Frame-Options", "DENY")] "X-Frame-Options" = some v →
      (headerFinding [("X-Frame-Options", "DENY")]
        ("X-Frame-Options", "medium",
         "X-Frame-Options missing - site may be vulnerable to clickjacking")).severity =
          some "info" ∧
      (headerFinding [("X-Frame-Options", "DENY")]
        ("X-Frame-Options", "medium",
         "X-Frame-Options missing - site may be vulnerable to clickjacking")).title =
          "X-Frame-Options" ++ " Present" ∧
      ("value", DVal.s v) ∈ (headerFinding [("X-Frame-Options", "DENY")]
        ("X-Frame-Options", "medium",
         "X-Frame-Options missing - site may be vulnerable to clickjacking")).details) :=
  C7_security_header_findings [("X-Frame-Options", "DENY")] 2 "X-Frame-Options" "medium"
    "X-Frame-Options missing - site may be vulnerable to clickjacking" rfl

/-- Claim C8: `is_proxy_running` maps every transport failure to `false`
(and, being a total function of the probe outcome, raises nothing), and
when the proxy is unavailable `analyze` returns exactly one finding, of
severity `info`, whose title states the proxy is not available — whatever
the API oracle would have answered. -/
theorem C8_proxy_unavailable_degrades (e : String) (cfg : BurpConfig)
    (apiResponse : Except String (Nat × List BurpIssue)) :
    isProxyRunning (.error e) = false ∧
    burpAnalyze cfg (.error e) apiResponse = [proxyUnavailableFinding cfg] ∧
    (burpAnalyze cfg (.error e) apiResponse).length = 1 ∧
    (proxyUnavailableFinding cfg).severity = some "info" ∧
    (proxyUnavailableFinding cfg).title = "Burp Suite Proxy Not Available" :=
  ⟨rfl, rfl, rfl, rfl, rfl⟩

/-- Claim C9: with truthy API credentials and a 200 response, each remote
issue maps to one finding whose severity translates `information` to `info`
and leaves `high`/`medium`/`low` unchanged; a non-200 response or a
transport failure yields exactly one descriptive `info` finding and
propagates no error. -/
theorem C9_api_results_mapping (cfg : BurpConfig) (issues : List BurpIssue)
    (status_code : Nat) (e : String) (i : Nat) (issue : BurpIssue)
    (hurl : truthyOpt cfg.api_url = true) (hkey : truthyOpt cfg.api_key = true)
    (hi : issues[i]? = some issue) (hstatus : status_code ≠ 200) :
    burpAnalyze cfg (.ok ()) (.ok (200, issues)) =
      proxyConnectedFinding cfg :: issues.map issueToFinding ∧
    (issues.map issueToFinding).length = issues.length ∧
    (issues.map issueToFinding)[i]? = some (issueToFinding issue) ∧
    (issueToFinding issue).severity = some (translateSeverity issue.severity) ∧
    translateSeverity (some "information") = "info" ∧
    translateSeverity (some "high") = "high" ∧
    translateSeverity (some "medium") = "medium" ∧
    translateSeverity (some "low") = "low" ∧
    fetchApiResults (.ok (status_code, issues)) = [apiStatusFinding status_code] ∧
    (apiStatusFinding status_code).severity = some "info" ∧
    fetchApiResults (.error e) = [apiErrorFinding e] ∧
    (apiErrorFinding e).severity = some "info" := by
  refine ⟨?_, by simp, ?_, rfl, rfl, rfl, rfl, rfl, ?_, rfl, rfl, rfl⟩
  · simp [burpAnalyze, isProxyRunning, fetchApiResults, hurl, hkey]
  · simp [List.getElem?_map, hi]
  · simp [fetchApiResults, hstatus]

/-- Witness for C9: concrete credentials, one remote issue of severity
`information`, failing status 404 and a concrete transport error. -/
theorem C9_witness :
    burpAnalyze sampleBurpConfig (.ok ()) (.ok (200, [sampleIssue])) =
      proxyConnectedFinding sampleBurpConfig ::
        List.map issueToFinding [sampleIssue] ∧
    (List.map issueToFinding [sampleIssue]).length =
      ([sampleIssue] : List BurpIssue).length ∧
    (List.map issueToFinding [sampleIssue])[0]? =
      some (issueToFinding sampleIssue) ∧
    (issueToFinding sampleIssue).severity =
      some (translateSeverity sampleIssue.severity) ∧
    translateSeverity (some "information") = "info" ∧
    translateSeverity (some "high") = "high" ∧
    translateSeverity (some "medium") = "medium" ∧
    translateSeverity (some "low") = "low" ∧
    fetchApiResults (.ok (404, [sampleIssue])) = [apiStatusFinding 404] ∧
    (apiStatusFinding 404).severity = some "info" ∧
    fetchApiResults (.error "connection refused") =
      [apiErrorFinding "connection refused"] ∧
    (apiErrorFinding "connection refused").severity = some "info" :=
  C9_api_results_mapping sampleBurpConfig [sampleIssue] 404 "connection refused" 0
    sampleIssue rfl rfl rfl (by decide)

/-- Claim C10, counterexample: a single finding whose severity string is
literally `total_requests` makes the severity loop increment the
`total_requests` bucket past the list length (2 versus length 1), so
`total_requests` does not always equal the number of findings. -/
theorem C10_counterexample :
    (calculateStats [totalReqSevFinding]).total_requests = 2 ∧
    ([totalReqSevFinding] : List Finding).length = 1 :=
  ⟨rfl, rfl⟩

/-- Claim C10, amended: provided no finding carries the literal severity
string `total_requests`, the `total_requests` stat equals the length of the
finding sequence — it counts findings, not HTTP requests performed. -/
theorem C10_total_requests_is_finding_count (fs : List Finding)
    (h : ∀ f ∈ fs, getSeverity f ≠ "total_requests") :
    (calculateStats fs).total_requests = fs.length := by
  rw [calculateStats_total, countSev_eq_zero "total_requests" fs h]
  omega

/-- Witness for C10: the amended theorem on the concrete mixed sample. -/
theorem C10_witness :
    (calculateStats sampleStatsFindings).total_requests = sampleStatsFindings.length :=
  C10_total_requests_is_finding_count sampleStatsFindings (by decide)

end WebSec
